import Mathlib

/-!
Shallow embedding of the target-list loading helper of the
`Querying_JWST_in_astroquery.ipynb` notebook, together with the Python
dict-comprehension that builds a target-count map.  Cell values are kept
as raw strings (numeric parsing of coordinates is the caller's business),
and a CSV file is embedded as its parsed form: a header row plus data rows.
-/

/-- Python's `s.strip().lower()`: trim surrounding whitespace, lower-case.
Modelled structurally over the string's character list so that it computes. -/
def normalizeName (s : String) : String :=
  String.mk (((s.data.dropWhile Char.isWhitespace).reverse.dropWhile
    Char.isWhitespace).reverse.map Char.toLower)

/-- Python's `s.endswith(t)`, as a suffix test on the character lists. -/
def pyEndsWith (s t : String) : Bool := t.data.isSuffixOf s.data

/-- A parsed CSV file: the raw header names and the data rows. -/
structure CsvFile where
  headers : List String
  rows : List (List String)
deriving DecidableEq, Repr

/-- The dataframe produced by `pd.read_csv` followed by
`df.rename(columns=lambda x: x.strip().lower())`: header names normalized,
rows unchanged. -/
structure DataFrame where
  columns : List String
  rows : List (List String)
deriving DecidableEq, Repr

/-- `pd.read_csv` + the renaming to stripped, lower-cased column names. -/
def readCsv (f : CsvFile) : DataFrame :=
  { columns := f.headers.map normalizeName, rows := f.rows }

/-- The fatal errors (`AssertionError` / `IndexError`) the loader can raise. -/
inductive LoadError where
  | badMode (m : String)
  | badExtension
  | missingColumn (c : String)
  | indexError
deriving DecidableEq, Repr

/-- The loader's two result shapes: a list of target names, or a list of
coordinate tuples (`to_records(...).tolist()`), each tuple kept as the list
of selected cell values. -/
inductive LoadResult where
  | names (l : List String)
  | coords (l : List (List String))
deriving DecidableEq, Repr

instance {ε α : Type} [DecidableEq ε] [DecidableEq α] : DecidableEq (Except ε α) := fun a b =>
  match a, b with
  | Except.error e, Except.error f =>
      if h : e = f then isTrue (by rw [h]) else isFalse (by intro c; cases c; exact h rfl)
  | Except.error _, Except.ok _ => isFalse (by intro c; cases c)
  | Except.ok _, Except.error _ => isFalse (by intro c; cases c)
  | Except.ok x, Except.ok y =>
      if h : x = y then isTrue (by rw [h]) else isFalse (by intro c; cases c; exact h rfl)

/-- Cell of a row at a column index (rows of a parsed CSV are rectangular;
out-of-range reads default to the empty cell to keep the model total). -/
def cellAt (row : List String) (i : Nat) : String := row.getD i ""

/-- The `load_by == 'name'` branch:
```
namecol = namecol.strip().lower()
if namecol:
    assert namecol in df.columns, 'csv file does not contain column {0}'.format(namecol)
targets = df[namecol] if namecol else df[df.columns[0]]
return targets.to_list()
``` -/
def loadName (df : DataFrame) (namecol : String) : Except LoadError LoadResult :=
  let nc := normalizeName namecol
  if nc ≠ "" ∧ nc ∉ df.columns then
    Except.error (LoadError.missingColumn nc)
  else if nc ≠ "" then
    Except.ok (LoadResult.names (df.rows.map (fun r => cellAt r (df.columns.indexOf nc))))
  else if df.columns = [] then
    Except.error LoadError.indexError
  else
    Except.ok (LoadResult.names (df.rows.map (fun r => cellAt r 0)))

/-- The `load_by == 'coord'` branch:
```
racol = racol.strip().lower()
deccol = deccol.strip().lower()
if racol:
    assert racol in df.columns, ...
if deccol:
    assert deccol in df.columns, ...
coord = df[[racol, deccol]] if racol and deccol else df[df.columns[0:2]]
targets = coord.to_records(index=False).tolist()
return targets
```
The positional `df.columns[0:2]` slice takes up to the first two columns. -/
def loadCoord (df : DataFrame) (racol deccol : String) : Except LoadError LoadResult :=
  let rc := normalizeName racol
  let dc := normalizeName deccol
  if rc ≠ "" ∧ rc ∉ df.columns then
    Except.error (LoadError.missingColumn rc)
  else if dc ≠ "" ∧ dc ∉ df.columns then
    Except.error (LoadError.missingColumn dc)
  else if rc ≠ "" ∧ dc ≠ "" then
    Except.ok (LoadResult.coords (df.rows.map (fun r =>
      [cellAt r (df.columns.indexOf rc), cellAt r (df.columns.indexOf dc)])))
  else
    Except.ok (LoadResult.coords (df.rows.map (fun r =>
      (List.range (min 2 df.columns.length)).map (fun i => cellAt r i))))

/-- `load_targets_from_file(filename, load_by, namecol, racol, deccol)`.
The `assert isinstance(filename, str)` check is enforced here by typing
(`filename : String`); the remaining checks mirror the source order:
mode check, then extension check, then the read + branch.  The file's
parsed contents are passed explicitly (`file`), standing for what
`pd.read_csv(filename)` would read from storage. -/
def load_targets_from_file (filename : String) (file : CsvFile)
    (load_by : String) (namecol : String) (racol : String) (deccol : String) :
    Except LoadError LoadResult :=
  if ¬ (load_by = "name" ∨ load_by = "coord") then
    Except.error (LoadError.badMode load_by)
  else if ¬ pyEndsWith filename ".csv" then
    Except.error LoadError.badExtension
  else
    let df := readCsv file
    if load_by = "name" then loadName df namecol
    else loadCoord df racol deccol

/-- The Python dict built by `targets = {k: 0 for k in names}`, embedded as an
insertion-ordered association list: inserting an existing key overwrites its
value in place, a new key is appended. -/
def dictInsert (m : List (String × Nat)) (k : String) (v : Nat) : List (String × Nat) :=
  if m.any (fun p => p.1 = k) then
    m.map (fun p => if p.1 = k then (k, v) else p)
  else
    m ++ [(k, v)]

/-- `targets = {k: 0 for k in names}`: fold the comprehension's inserts. -/
def targetsMap (names : List String) : List (String × Nat) :=
  names.foldl (fun m k => dictInsert m k 0) []

/-- Keep the first occurrence of every element, in order of first occurrence
(the key order of a Python dict built from the sequence). -/
def dedupFirst : List String → List String
  | [] => []
  | k :: ks => k :: (dedupFirst ks).filter (fun x => x ≠ k)

/-! Helper lemmas about the two branch functions. -/

lemma loadName_ne_badMode (df : DataFrame) (nc m : String) :
    loadName df nc ≠ Except.error (LoadError.badMode m) := by
  simp only [loadName]
  split
  · simp
  · split
    · simp
    · split <;> simp

lemma loadCoord_ne_badMode (df : DataFrame) (rc dc m : String) :
    loadCoord df rc dc ≠ Except.error (LoadError.badMode m) := by
  simp only [loadCoord]
  split
  · simp
  · split
    · simp
    · split <;> simp

/-- Claim C6: a `load_by` outside `{"name", "coord"}` makes
`load_targets_from_file` fail with the unsupported-mode error, regardless of
every other argument; a `load_by` inside the set passes the mode check, so the
result is never the unsupported-mode error. -/
theorem c6_mode_validation (filename mode nc rc dc : String) (f : CsvFile) :
    (¬ (mode = "name" ∨ mode = "coord") →
      load_targets_from_file filename f mode nc rc dc =
        Except.error (LoadError.badMode mode)) ∧
    ((mode = "name" ∨ mode = "coord") → ∀ m : String,
      load_targets_from_file filename f mode nc rc dc ≠
        Except.error (LoadError.badMode m)) := by
  constructor
  · intro h
    simp only [load_targets_from_file, if_pos h]
  · intro h m
    simp only [load_targets_from_file, if_neg (not_not_intro h)]
    split
    · simp
    · split
      · exact loadName_ne_badMode _ _ _
      · exact loadCoord_ne_badMode _ _ _ _

/-- Claim C6 witness at concrete inputs. -/
theorem c6_mode_validation_witness :
    load_targets_from_file "t.csv" ⟨["a"], [["1"]]⟩ "nmae" "" "" "" =
      Except.error (LoadError.badMode "nmae") ∧
    load_targets_from_file "t.csv" ⟨["a"], [["1"]]⟩ "name" "" "" "" ≠
      Except.error (LoadError.badMode "name") :=
  ⟨(c6_mode_validation "t.csv" "nmae" "" "" "" ⟨["a"], [["1"]]⟩).1 (by decide),
   (c6_mode_validation "t.csv" "name" "" "" "" ⟨["a"], [["1"]]⟩).2 (Or.inl rfl) "name"⟩

/-- Claim C5: a filename that does not end in ".csv" makes the call fail with
some fatal error, and the outcome is the same for any two file contents: the
file is never parsed. -/
theorem c5_extension_validation (filename mode nc rc dc : String) (f g : CsvFile)
    (h : pyEndsWith filename ".csv" = false) :
    (∃ e : LoadError,
      load_targets_from_file filename f mode nc rc dc = Except.error e) ∧
    load_targets_from_file filename f mode nc rc dc =
      load_targets_from_file filename g mode nc rc dc := by
  by_cases hm : mode = "name" ∨ mode = "coord"
  · have key : ∀ x : CsvFile,
        load_targets_from_file filename x mode nc rc dc =
          Except.error LoadError.badExtension := by
      intro x
      simp only [load_targets_from_file, if_neg (not_not_intro hm)]
      rw [if_pos (by simp [h])]
    exact ⟨⟨LoadError.badExtension, key f⟩, (key f).trans (key g).symm⟩
  · have key : ∀ x : CsvFile,
        load_targets_from_file filename x mode nc rc dc =
          Except.error (LoadError.badMode mode) := by
      intro x
      simp only [load_targets_from_file, if_pos hm]
    exact ⟨⟨LoadError.badMode mode, key f⟩, (key f).trans (key g).symm⟩

/-- Claim C5 witness at concrete inputs. -/
theorem c5_extension_validation_witness :
    (∃ e : LoadError,
      load_targets_from_file "t.txt" ⟨["a"], [["1"]]⟩ "name" "" "" "" =
        Except.error e) ∧
    load_targets_from_file "t.txt" ⟨["a"], [["1"]]⟩ "name" "" "" "" =
      load_targets_from_file "t.txt" ⟨["b"], []⟩ "name" "" "" "" :=
  c5_extension_validation "t.txt" "name" "" "" "" ⟨["a"], [["1"]]⟩ ⟨["b"], []⟩ (by decide)

/-- Claim C10: validation order at the public interface.  The filename-type
check is enforced by typing; then an unrecognized mode always yields the mode
error, even when the extension is also bad, and a recognized mode with a bad
extension yields the extension error; in both cases the result is the same for
any two file contents, so no validation failure reads the file. -/
theorem c10_validation_order (filename mode nc rc dc : String) (f g : CsvFile) :
    (¬ (mode = "name" ∨ mode = "coord") →
      load_targets_from_file filename f mode nc rc dc =
          Except.error (LoadError.badMode mode) ∧
        load_targets_from_file filename f mode nc rc dc =
          load_targets_from_file filename g mode nc rc dc) ∧
    ((mode = "name" ∨ mode = "coord") → pyEndsWith filename ".csv" = false →
      load_targets_from_file filename f mode nc rc dc =
          Except.error LoadError.badExtension ∧
        load_targets_from_file filename f mode nc rc dc =
          load_targets_from_file filename g mode nc rc dc) := by
  constructor
  · intro hm
    have key : ∀ x : CsvFile,
        load_targets_from_file filename x mode nc rc dc =
          Except.error (LoadError.badMode mode) := by
      intro x
      simp only [load_targets_from_file, if_pos hm]
    exact ⟨key f, (key f).trans (key g).symm⟩
  · intro hm he
    have key : ∀ x : CsvFile,
        load_targets_from_file filename x mode nc rc dc =
          Except.error LoadError.badExtension := by
      intro x
      simp only [load_targets_from_file, if_neg (not_not_intro hm)]
      rw [if_pos (by simp [he])]
    exact ⟨key f, (key f).trans (key g).symm⟩

/-- Claim C10 witness: a call with both a bogus mode and a bad extension fails
with the mode error, and a good mode with a bad extension fails with the
extension error. -/
theorem c10_validation_order_witness :
    load_targets_from_file "t.txt" ⟨["a"], [["1"]]⟩ "bogus" "" "" "" =
      Except.error (LoadError.badMode "bogus") ∧
    load_targets_from_file "t.txt" ⟨["a"], [["1"]]⟩ "coord" "" "" "" =
      Except.error LoadError.badExtension :=
  ⟨((c10_validation_order "t.txt" "bogus" "" "" "" ⟨["a"], [["1"]]⟩ ⟨[], []⟩).1
      (by decide)).1,
   ((c10_validation_order "t.txt" "coord" "" "" "" ⟨["a"], [["1"]]⟩ ⟨[], []⟩).2
      (Or.inr rfl) (by decide)).1⟩

/-- Claim C9: noninterference of irrelevant arguments.  In name mode the
result does not depend on the RA/Dec column arguments (they are never read in
that branch, so even a nonexistent RA/Dec column name cannot cause an error);
in coord mode the result does not depend on the name-column argument. -/
theorem c9_noninterference (filename nc nc' rc rc' dc dc' : String) (f : CsvFile) :
    load_targets_from_file filename f "name" nc rc dc =
      load_targets_from_file filename f "name" nc rc' dc' ∧
    load_targets_from_file filename f "coord" nc rc dc =
      load_targets_from_file filename f "coord" nc' rc dc := by
  constructor <;> rfl

/-- Claim C1: evaluation of the code at the failing input.  With no overrides
supplied, name mode uses the default column name "target_name" as if it were
an override: on a file whose first column is named "object" the loader raises
the missing-column assertion instead of returning the first column, although
its own docstring promises "if nothing specified, assumes the first column
contains the target name".  Only an explicitly empty override falls back to
the first column. -/
theorem c1_unset_override_uses_default_name :
    load_targets_from_file "targets.csv"
        ⟨["object", "ra", "dec"], [["m31", "10.68", "41.27"], ["m33", "23.46", "30.66"]]⟩
        "name" "target_name" "ra" "dec"
      = Except.error (LoadError.missingColumn "target_name") ∧
    load_targets_from_file "targets.csv"
        ⟨["object", "ra", "dec"], [["m31", "10.68", "41.27"], ["m33", "23.46", "30.66"]]⟩
        "name" "" "ra" "dec"
      = Except.ok (LoadResult.names ["m31", "m33"]) := by
  constructor <;> decide

/-- Claim C3: a non-empty normalized column override that is absent from the
file's normalized header names makes the load fail with the missing-column
assertion, naming a missing column, and the failure is the same for every
list of data rows — the error is raised before any row value is extracted and
no partial result is produced. -/
theorem c3_missing_column_is_fatal (filename : String) (hs : List String)
    (rows rows' : List (List String)) (mode nc rc dc : String)
    (hext : pyEndsWith filename ".csv" = true)
    (hmiss : (mode = "name" ∧ normalizeName nc ≠ "" ∧
                normalizeName nc ∉ hs.map normalizeName)
           ∨ (mode = "coord" ∧
                ((normalizeName rc ≠ "" ∧ normalizeName rc ∉ hs.map normalizeName)
               ∨ (normalizeName dc ≠ "" ∧ normalizeName dc ∉ hs.map normalizeName)))) :
    ∃ c : String, c ≠ "" ∧ c ∉ hs.map normalizeName ∧
      load_targets_from_file filename ⟨hs, rows⟩ mode nc rc dc =
        Except.error (LoadError.missingColumn c) ∧
      load_targets_from_file filename ⟨hs, rows'⟩ mode nc rc dc =
        Except.error (LoadError.missingColumn c) := by
  rcases hmiss with ⟨hmode, hne, hnotin⟩ | ⟨hmode, hcoord⟩
  · subst hmode
    refine ⟨normalizeName nc, hne, hnotin, ?_, ?_⟩ <;>
      simp [load_targets_from_file, loadName, readCsv, hext, hne, hnotin]
  · subst hmode
    by_cases hra : normalizeName rc ≠ "" ∧ normalizeName rc ∉ hs.map normalizeName
    · refine ⟨normalizeName rc, hra.1, hra.2, ?_, ?_⟩ <;>
        simp [load_targets_from_file, loadCoord, readCsv, hext, hra.1, hra.2]
    · have hdec : normalizeName dc ≠ "" ∧ normalizeName dc ∉ hs.map normalizeName := by
        rcases hcoord with h | h
        · exact absurd h hra
        · exact h
      rcases not_and_or.mp hra with h0 | hin
      · have h0' : normalizeName rc = "" := not_not.mp h0
        refine ⟨normalizeName dc, hdec.1, hdec.2, ?_, ?_⟩ <;>
          simp [load_targets_from_file, loadCoord, readCsv, hext, h0', hdec.1, hdec.2]
      · have hin' : normalizeName rc ∈ hs.map normalizeName := not_not.mp hin
        refine ⟨normalizeName dc, hdec.1, hdec.2, ?_, ?_⟩ <;>
          simp [load_targets_from_file, loadCoord, readCsv, hext, hin', hdec.1, hdec.2]

/-- Claim C3 witness: overriding the name column with "Flux " (normalizing to
"flux", absent from the header) fails with the missing-column error for two
different row lists. -/
theorem c3_missing_column_is_fatal_witness :
    ∃ c : String, c ≠ "" ∧ c ∉ (["target_name", "ra"].map normalizeName) ∧
      load_targets_from_file "t.csv" ⟨["target_name", "ra"], [["m31", "10"]]⟩
          "name" "Flux " "ra" "dec" =
        Except.error (LoadError.missingColumn c) ∧
      load_targets_from_file "t.csv" ⟨["target_name", "ra"], []⟩
          "name" "Flux " "ra" "dec" =
        Except.error (LoadError.missingColumn c) :=
  c3_missing_column_is_fatal "t.csv" ["target_name", "ra"] [["m31", "10"]] []
    "name" "Flux " "ra" "dec" (by decide)
    (Or.inl ⟨rfl, by decide, by decide⟩)

/-- Claim C4: in name mode every successful load returns one entry per data
row: the result is the row-wise map of a single column index, so its length
equals the number of data rows and the entries appear in file row order,
duplicates preserved and no row dropped. -/
theorem c4_name_mode_preserves_rows (filename : String) (hs : List String)
    (rows : List (List String)) (nc rc dc : String) (l : List String)
    (h : load_targets_from_file filename ⟨hs, rows⟩ "name" nc rc dc =
      Except.ok (LoadResult.names l)) :
    l.length = rows.length ∧ ∃ i : Nat, l = rows.map (fun r => cellAt r i) := by
  unfold load_targets_from_file at h
  rw [if_neg (not_not_intro (Or.inl rfl))] at h
  by_cases he : pyEndsWith filename ".csv" = true
  · rw [if_neg (by simp [he]), if_pos rfl] at h
    simp only [loadName, readCsv] at h
    split at h
    · cases h
    · split at h
      · rw [Except.ok.injEq, LoadResult.names.injEq] at h
        refine ⟨?_, ⟨(hs.map normalizeName).indexOf (normalizeName nc), h.symm⟩⟩
        rw [← h, List.length_map]
      · split at h
        · cases h
        · rw [Except.ok.injEq, LoadResult.names.injEq] at h
          refine ⟨?_, ⟨0, h.symm⟩⟩
          rw [← h, List.length_map]
  · rw [if_pos (by simp [he])] at h
    cases h

/-- Claim C4 witness at a concrete file with a duplicate row. -/
theorem c4_name_mode_preserves_rows_witness :
    (["m31", "m33", "m31"] : List String).length =
        ([["m31", "1"], ["m33", "2"], ["m31", "3"]] : List (List String)).length ∧
      ∃ i : Nat, ["m31", "m33", "m31"] =
        ([["m31", "1"], ["m33", "2"], ["m31", "3"]] : List (List String)).map
          (fun r => cellAt r i) :=
  c4_name_mode_preserves_rows "t.csv" ["target_name", "ra"]
    [["m31", "1"], ["m33", "2"], ["m31", "3"]] "" "" "" ["m31", "m33", "m31"]
    (by decide)

lemma loadName_congr (df : DataFrame) (a b : String)
    (h : normalizeName a = normalizeName b) : loadName df a = loadName df b := by
  simp only [loadName, h]

lemma loadCoord_congr (df : DataFrame) (r r' d d' : String)
    (hr : normalizeName r = normalizeName r') (hd : normalizeName d = normalizeName d') :
    loadCoord df r d = loadCoord df r' d' := by
  simp only [loadCoord, hr, hd]

/-- Claim C7: column matching is case- and whitespace-insensitive on both
sides.  Replacing the header names and the three column-name arguments by any
variants with the same trimmed, lower-cased form (in particular: changing only
letter case or surrounding whitespace on either side) yields the same load
result. -/
theorem c7_case_whitespace_insensitive (filename mode nc nc' rc rc' dc dc' : String)
    (hs hs' : List String) (rows : List (List String))
    (hh : hs.map normalizeName = hs'.map normalizeName)
    (hn : normalizeName nc = normalizeName nc')
    (hr : normalizeName rc = normalizeName rc')
    (hd : normalizeName dc = normalizeName dc') :
    load_targets_from_file filename ⟨hs, rows⟩ mode nc rc dc =
      load_targets_from_file filename ⟨hs', rows⟩ mode nc' rc' dc' := by
  have e : readCsv ⟨hs, rows⟩ = readCsv ⟨hs', rows⟩ := by
    simp [readCsv, hh]
  simp only [load_targets_from_file, e]
  rw [loadName_congr _ nc nc' hn, loadCoord_congr _ rc rc' dc dc' hr hd]

/-- Claim C7 witness: a file whose header differs only in case and spacing,
and overrides differing only in case and spacing, load identically. -/
theorem c7_case_whitespace_insensitive_witness :
    load_targets_from_file "t.csv" ⟨[" Target_Name ", "RA"], [["m31", "10"]]⟩
        "name" "TARGET_NAME" "ra" "dec" =
      load_targets_from_file "t.csv" ⟨["target_name", " ra "], [["m31", "10"]]⟩
        "name" " target_name" "RA " "Dec" :=
  c7_case_whitespace_insensitive "t.csv" "name" "TARGET_NAME" " target_name"
    "ra" "RA " "dec" "Dec" [" Target_Name ", "RA"] ["target_name", " ra "]
    [["m31", "10"]] (by decide) (by decide) (by decide) (by decide)

/-- Claim C2 counterexample: with an empty RA override and a Dec override "z"
(which exists and is validated), the loader does not take second components
from column "z" (value "3"); it falls back to the file's first two columns,
so the pair is ("1", "2").  Resolution is therefore not independent: a single
empty override discards the other, supplied one. -/
theorem c2_counterexample_dec_override_ignored :
    load_targets_from_file "t.csv" ⟨["x", "y", "z"], [["1", "2", "3"]]⟩
        "coord" "target_name" "" "z"
      = Except.ok (LoadResult.coords [["1", "2"]]) ∧
    ("2" : String) ≠ "3" := by
  constructor <;> decide

/-- Claim C2 as amended: in coord mode the RA and Dec overrides are validated
independently (each non-empty one must exist, RA checked first), but the
override columns are selected only when both are non-empty; if either is
empty, the first two columns are used positionally, even when the other
override was supplied and validated. -/
theorem c2_amended_coord_resolution (filename : String) (hs : List String)
    (rows : List (List String)) (nc rc dc : String)
    (hext : pyEndsWith filename ".csv" = true) :
    (normalizeName rc ≠ "" → normalizeName rc ∉ hs.map normalizeName →
      load_targets_from_file filename ⟨hs, rows⟩ "coord" nc rc dc =
        Except.error (LoadError.missingColumn (normalizeName rc))) ∧
    (normalizeName dc ≠ "" → normalizeName dc ∉ hs.map normalizeName →
      (normalizeName rc = "" ∨ normalizeName rc ∈ hs.map normalizeName) →
      load_targets_from_file filename ⟨hs, rows⟩ "coord" nc rc dc =
        Except.error (LoadError.missingColumn (normalizeName dc))) ∧
    (normalizeName rc ≠ "" → normalizeName dc ≠ "" →
      normalizeName rc ∈ hs.map normalizeName →
      normalizeName dc ∈ hs.map normalizeName →
      load_targets_from_file filename ⟨hs, rows⟩ "coord" nc rc dc =
        Except.ok (LoadResult.coords (rows.map (fun r =>
          [cellAt r ((hs.map normalizeName).indexOf (normalizeName rc)),
           cellAt r ((hs.map normalizeName).indexOf (normalizeName dc))])))) ∧
    ((normalizeName rc = "" ∨ normalizeName dc = "") →
      (normalizeName rc ≠ "" → normalizeName rc ∈ hs.map normalizeName) →
      (normalizeName dc ≠ "" → normalizeName dc ∈ hs.map normalizeName) →
      load_targets_from_file filename ⟨hs, rows⟩ "coord" nc rc dc =
        Except.ok (LoadResult.coords (rows.map (fun r =>
          (List.range (min 2 hs.length)).map (fun i => cellAt r i))))) := by
  refine ⟨?_, ?_, ?_, ?_⟩
  · intro h1 h2
    simp [load_targets_from_file, loadCoord, readCsv, hext, h1, h2]
  · intro h1 h2 h3
    rcases h3 with h3 | h3 <;>
      simp [load_targets_from_file, loadCoord, readCsv, hext, h1, h2, h3]
  · intro h1 h2 h3 h4
    simp [load_targets_from_file, loadCoord, readCsv, hext, h1, h2, h3, h4]
  · intro h1 h2 h3
    rcases h1 with h1 | h1
    · by_cases hd : normalizeName dc = ""
      · simp [load_targets_from_file, loadCoord, readCsv, hext, h1, hd]
      · simp [load_targets_from_file, loadCoord, readCsv, hext, h1, hd, h3 hd]
    · by_cases hr : normalizeName rc = ""
      · simp [load_targets_from_file, loadCoord, readCsv, hext, hr, h1]
      · simp [load_targets_from_file, loadCoord, readCsv, hext, hr, h1, h2 hr]

/-- Claim C2 witness: both-override selection and the empty-RA fallback, at a
concrete three-column file. -/
theorem c2_amended_coord_resolution_witness :
    load_targets_from_file "t.csv" ⟨["x", "y", "z"], [["1", "2", "3"]]⟩
        "coord" "" "y" "z"
      = Except.ok (LoadResult.coords [["2", "3"]]) ∧
    load_targets_from_file "t.csv" ⟨["x", "y", "z"], [["1", "2", "3"]]⟩
        "coord" "" "" "z"
      = Except.ok (LoadResult.coords [["1", "2"]]) := by
  constructor
  · exact (c2_amended_coord_resolution "t.csv" ["x", "y", "z"] [["1", "2", "3"]]
      "" "y" "z" (by decide)).2.2.1 (by decide) (by decide) (by decide) (by decide)
  · exact (c2_amended_coord_resolution "t.csv" ["x", "y", "z"] [["1", "2", "3"]]
      "" "" "z" (by decide)).2.2.2 (Or.inl (by decide)) (fun h => absurd rfl h)
      (fun _ => by decide)

/-! Development for the target-count map: keys of the dict comprehension. -/

/-- Effect of one dict insertion on the key sequence. -/
def insertKey (acc : List String) (k : String) : List String :=
  if k ∈ acc then acc else acc ++ [k]

lemma map_fst_dictInsert (m : List (String × Nat)) (k : String) (v : Nat) :
    (dictInsert m k v).map Prod.fst = insertKey (m.map Prod.fst) k := by
  have hany : (m.any (fun p => p.1 = k)) = true ↔ k ∈ m.map Prod.fst := by
    simp [List.any_eq_true, List.mem_map]
  unfold dictInsert insertKey
  by_cases h : k ∈ m.map Prod.fst
  · rw [if_pos (hany.mpr h), if_pos h, List.map_map]
    apply List.map_congr_left
    intro p _
    by_cases hpk : p.1 = k
    · simp [hpk]
    · simp [hpk]
  · rw [if_neg (fun hc => h (hany.mp hc)), if_neg h, List.map_append]
    rfl

lemma map_fst_foldl_dictInsert (names : List String) (m : List (String × Nat)) :
    (names.foldl (fun acc k => dictInsert acc k 0) m).map Prod.fst =
      names.foldl insertKey (m.map Prod.fst) := by
  induction names generalizing m with
  | nil => rfl
  | cons k ks ih =>
    simp only [List.foldl_cons]
    rw [ih, map_fst_dictInsert]

lemma dedupFirst_filter (p : String → Bool) (l : List String) :
    dedupFirst (l.filter p) = (dedupFirst l).filter p := by
  induction l with
  | nil => rfl
  | cons a l ih =>
    by_cases h : p a
    · rw [List.filter_cons_of_pos h]
      simp only [dedupFirst]
      rw [ih, List.filter_cons_of_pos h, List.filter_filter, List.filter_filter]
      congr 1
      apply List.filter_congr
      intro x _
      exact Bool.and_comm _ _
    · rw [List.filter_cons_of_neg h, ih]
      simp only [dedupFirst]
      rw [List.filter_cons_of_neg h, List.filter_filter]
      apply List.filter_congr
      intro x _
      by_cases hx : x = a
      · subst hx
        simp [Bool.eq_false_iff.mpr h]
      · simp [hx]

lemma foldl_insertKey (names : List String) (acc : List String) :
    names.foldl insertKey acc =
      acc ++ dedupFirst (names.filter (fun x => decide (x ∉ acc))) := by
  induction names generalizing acc with
  | nil => simp [dedupFirst]
  | cons k ks ih =>
    simp only [List.foldl_cons]
    by_cases hk : k ∈ acc
    · rw [show insertKey acc k = acc from if_pos hk, ih,
        List.filter_cons_of_neg (by simp [hk])]
    · rw [show insertKey acc k = acc ++ [k] from if_neg hk, ih,
        List.filter_cons_of_pos (by simp [hk])]
      have hsplit : ks.filter (fun x => decide (x ∉ acc ++ [k])) =
          (ks.filter (fun x => decide (x ∉ acc))).filter (fun x => decide (x ≠ k)) := by
        rw [List.filter_filter]
        apply List.filter_congr
        intro x _
        by_cases hxk : x = k
        · simp [hxk]
        · by_cases hxa : x ∈ acc <;> simp [hxk, hxa]
      rw [hsplit, dedupFirst_filter]
      simp only [dedupFirst, List.append_assoc, List.singleton_append]

lemma nodup_dedupFirst (l : List String) : (dedupFirst l).Nodup := by
  induction l with
  | nil => exact List.nodup_nil
  | cons a l ih =>
    refine List.Nodup.cons ?_ (List.Nodup.filter _ ih)
    intro hmem
    have := List.mem_filter.mp hmem
    simp at this

lemma mem_dedupFirst (x : String) (l : List String) : x ∈ dedupFirst l ↔ x ∈ l := by
  induction l with
  | nil => exact Iff.rfl
  | cons a l ih =>
    simp only [dedupFirst, List.mem_cons, List.mem_filter, ih]
    by_cases hx : x = a <;> simp [hx]

/-- Claim C8: the keys of the target-count map built by the dict comprehension
`{k: 0 for k in names}` are exactly the supplied identifiers deduplicated to
their first occurrences, in first-occurrence order; in particular the key list
has no duplicates (one entry per distinct identifier) and contains exactly the
supplied identifiers. -/
theorem c8_target_map_key_order (names : List String) :
    (targetsMap names).map Prod.fst = dedupFirst names ∧
    ((targetsMap names).map Prod.fst).Nodup ∧
    (∀ k : String, k ∈ (targetsMap names).map Prod.fst ↔ k ∈ names) := by
  have h1 : (targetsMap names).map Prod.fst = dedupFirst names := by
    unfold targetsMap
    rw [map_fst_foldl_dictInsert]
    have h := foldl_insertKey names []
    simpa using h
  exact ⟨h1, h1 ▸ nodup_dedupFirst names, fun k => h1 ▸ mem_dedupFirst k names⟩
